import Mathlib

/-!
Verification development for the Hippo Exchange borrow-request core.

The definitions below are a shallow embedding of the Firestore-backed
repositories (`FsItems`, `FsRequests`) and the minimal-API route handlers
of `Program.cs` that implement the item-availability state machine:
create/read/update/delete/return on items, submit/respond on borrow
requests.  Firestore documents become entries of an association list
keyed by document id; `DocumentReference` values for profiles become the
profile id string they point at; `DateTime` values become `Nat`
timestamps supplied by the caller (`now`); the non-deterministic
`Guid.NewGuid()` becomes an explicit `freshId` argument.  Every storage
round-trip (document get, set, update, delete, query) additionally emits
a `StoreEvent`, so ordering and frame properties of the handlers are
visible in the result.
-/

/-- `string.IsNullOrWhiteSpace`: true when every character is whitespace
(vacuously true for the empty string). -/
def isBlank (s : String) : Bool :=
  s.data.all Char.isWhitespace

/-- `String.Trim`: drop leading and trailing whitespace characters. -/
def trimChars (cs : List Char) : List Char :=
  ((cs.dropWhile Char.isWhitespace).reverse.dropWhile Char.isWhitespace).reverse

/-- `s.Trim()` on the character-list view of a string. -/
def strTrim (s : String) : String :=
  ⟨trimChars s.data⟩

/-- Association-list lookup by document id. -/
def lookupMap {α : Type} : List (String × α) → String → Option α
  | [], _ => none
  | (k, v) :: rest, key => if k = key then some v else lookupMap rest key

/-- Association-list upsert: `SetAsync` on a document reference (creates
the document when absent, replaces its fields when present). -/
def insertMap {α : Type} (key : String) (value : α) : List (String × α) → List (String × α)
  | [] => [(key, value)]
  | (k, v) :: rest => if k = key then (key, value) :: rest else (k, v) :: insertMap key value rest

/-- Association-list erase: `DeleteAsync` on a document reference (a
no-op when the document is absent, which Firestore reports as success). -/
def eraseMap {α : Type} (key : String) : List (String × α) → List (String × α)
  | [] => []
  | (k, v) :: rest => if k = key then eraseMap key rest else (k, v) :: eraseMap key rest

/-- Request status enum.  The code stores the strings
"pending" / "accepted" / "denied" (compared case-insensitively in the
respond handler); these three values are the only ones the system ever
writes, so they are embedded as an inductive type. -/
inductive Status where
  | pending
  | accepted
  | denied
deriving Repr, DecidableEq

/-- `InventoryItem` (FsItems.cs): a document of the `items` collection.
`ownerRef` / `borrowerRef` embed the nullable profile
`DocumentReference`s as the referenced profile id. -/
structure InventoryItem where
  itemId : String
  name : String
  pricePerDay : Int
  picture : String
  location : String
  isLent : Bool
  condition : String
  ownerRef : Option String
  borrowerRef : Option String
  borrowedOn : Option Nat
  dueAt : Option Nat
deriving Repr, DecidableEq

/-- `InventoryItemRequest` (FsItems.cs): the incoming item payload of the
create and update routes.  The nullable C# `ItemId` is embedded as a
string, with null read as the blank string. -/
structure InventoryItemRequest where
  itemId : String
  name : String
  pricePerDay : Int
  picture : String
  location : String
  isLent : Bool
  condition : String
  ownerId : String
  borrowerId : String
  borrowedOn : Option Nat
  dueAt : Option Nat
deriving Repr, DecidableEq

/-- `BorrowRequestEntity` (FsRequests.cs): a document of the `requests`
collection. -/
structure BorrowRequestEntity where
  requestId : String
  ownerId : String
  borrowerId : String
  itemId : String
  itemName : String
  dueAt : Option Nat
  status : Status
  createdAt : Nat
deriving Repr, DecidableEq

/-- `CreateRequestDto` (Models.cs): body of `POST /api/requests`. -/
structure CreateRequestDto where
  itemId : String
  borrowerId : String
  dueAt : Option Nat
deriving Repr, DecidableEq

/-- `BorrowRequest` (Models.cs): body of `POST /api/items/{id}/borrow`. -/
structure BorrowBody where
  borrowerId : String
  borrowedOn : Option Nat
  dueAt : Option Nat
deriving Repr, DecidableEq

/-- One storage round-trip performed by a repository call.  Traces of
these events expose the order of reads and writes that the route
handlers issue against the document store. -/
inductive StoreEvent where
  | readItem (itemId : String)
  | writeItem (itemId : String)
  | deleteItem (itemId : String)
  | queryItemsByOwner (ownerId : String)
  | readRequest (requestId : String)
  | writeRequest (requestId : String)
  | writeRequestStatus (requestId : String) (status : Status)
  | queryRequestsByOwner (ownerId : String)
deriving Repr, DecidableEq

/-- The `items` collection. -/
abbrev Items := List (String × InventoryItem)

/-- The `requests` collection. -/
abbrev Requests := List (String × BorrowRequestEntity)

/-- Both collections of the document store. -/
structure Store where
  items : Items
  requests : Requests
deriving Repr, DecidableEq

/-- `FsItems.CreateProfileReference`: blank profile ids resolve to no
reference; otherwise the id is trimmed. -/
def createProfileReference (profileId : String) : Option String :=
  if isBlank profileId then none else some (strTrim profileId)

/-- `FsItems.CreateAsync`: persists a new item.  Assigns `freshId` when
the incoming id is blank; throws (here: `none`) when the owner id is
blank; coerces `isLent` to false when no borrower reference resolves and
clears the borrow fields of a non-lent payload before the single
`SetAsync`. -/
def FsItems.createAsync (item : InventoryItemRequest) (freshId : String) (store : Items) :
    Option (InventoryItem × Items × List StoreEvent) :=
  let itemId := if isBlank item.itemId then freshId else strTrim item.itemId
  match createProfileReference item.ownerId with
  | none => none
  | some ownerId =>
    let payload : InventoryItem :=
      { itemId := itemId
        name := item.name
        pricePerDay := item.pricePerDay
        picture := item.picture
        location := item.location
        isLent := item.isLent
        condition := item.condition
        ownerRef := some ownerId
        borrowerRef := createProfileReference item.borrowerId
        borrowedOn := item.borrowedOn
        dueAt := item.dueAt }
    let payload := { payload with isLent := payload.isLent && payload.borrowerRef.isSome }
    let payload :=
      if payload.isLent then payload
      else { payload with borrowerRef := none, borrowedOn := none, dueAt := none }
    some (payload, insertMap itemId payload store, [StoreEvent.writeItem itemId])

/-- `FsItems.ReadAsync`: returns null for blank ids without calling
Firestore; otherwise fetches the document snapshot. -/
def FsItems.readAsync (itemId : String) (store : Items) :
    Option InventoryItem × Items × List StoreEvent :=
  if isBlank itemId then (none, store, [])
  else (lookupMap store itemId, store, [StoreEvent.readItem itemId])

/-- `FsItems.UpdateAsync`: returns false for blank item ids without
calling Firestore; otherwise `SetAsync` with MergeAll over the full
field set of the document. -/
def FsItems.updateAsync (item : InventoryItem) (store : Items) :
    Bool × Items × List StoreEvent :=
  if isBlank item.itemId then (false, store, [])
  else (true, insertMap item.itemId item store, [StoreEvent.writeItem item.itemId])

/-- `FsItems.DeleteAsync`: returns false for blank ids without calling
Firestore; otherwise issues the delete (a success even when the
document does not exist) and returns true. -/
def FsItems.deleteAsync (itemId : String) (store : Items) :
    Bool × Items × List StoreEvent :=
  if isBlank itemId then (false, store, [])
  else (true, eraseMap itemId store, [StoreEvent.deleteItem itemId])

/-- `FsItems.ReturnItemAsync`: returns false for blank ids; reads the
snapshot, returns false when it does not exist; otherwise one
`UpdateAsync` clears `isLent` and deletes the `borrowerId`,
`borrowedOn` and `dueAt` fields. -/
def FsItems.returnItemAsync (itemId : String) (store : Items) :
    Bool × Items × List StoreEvent :=
  if isBlank itemId then (false, store, [])
  else
    match lookupMap store itemId with
    | none => (false, store, [StoreEvent.readItem itemId])
    | some it =>
        (true,
         insertMap itemId
           { it with isLent := false, borrowerRef := none, borrowedOn := none, dueAt := none }
           store,
         [StoreEvent.readItem itemId, StoreEvent.writeItem itemId])

/-- `FsItems.ListByOwnerAsync`: returns the empty list for blank owner
ids without calling Firestore; otherwise runs the reference-typed owner
query followed by the legacy string-typed query and merges by item id.
Under the `InventoryItem` schema the `ownerId` field is always a
reference, so the legacy query contributes no documents. -/
def FsItems.listByOwnerAsync (ownerId : String) (store : Items) :
    List InventoryItem × List StoreEvent :=
  if isBlank ownerId then ([], [])
  else
    ((store.filter (fun kv => kv.2.ownerRef = some (strTrim ownerId))).map Prod.snd,
     [StoreEvent.queryItemsByOwner ownerId, StoreEvent.queryItemsByOwner ownerId])

/-- `FsRequests.CreateAsync`: assigns `freshId` when the incoming id is
blank, then `SetAsync` stores the entity under its id. -/
def FsRequests.createAsync (entity : BorrowRequestEntity) (freshId : String) (store : Requests) :
    BorrowRequestEntity × Requests × List StoreEvent :=
  let entity :=
    if isBlank entity.requestId then { entity with requestId := freshId } else entity
  (entity, insertMap entity.requestId entity store, [StoreEvent.writeRequest entity.requestId])

/-- `FsRequests.ReadAsync`: returns null for blank ids without calling
Firestore; otherwise fetches the snapshot. -/
def FsRequests.readAsync (requestId : String) (store : Requests) :
    Option BorrowRequestEntity × Requests × List StoreEvent :=
  if isBlank requestId then (none, store, [])
  else (lookupMap store requestId, store, [StoreEvent.readRequest requestId])

/-- `FsRequests.ListForOwnerAsync`: returns the empty list for blank
owner ids without calling Firestore; otherwise the query filters on
`ownerId` equality and `status == "pending"`. -/
def FsRequests.listForOwnerAsync (ownerId : String) (store : Requests) :
    List BorrowRequestEntity × List StoreEvent :=
  if isBlank ownerId then ([], [])
  else
    ((store.filter (fun kv => kv.2.ownerId = ownerId ∧ kv.2.status = Status.pending)).map Prod.snd,
     [StoreEvent.queryRequestsByOwner ownerId])

/-- `FsRequests.UpdateStatusAsync`: single-field patch of `status`; the
call performs no status precondition check and reports true.  (Firestore
would reject the patch for an absent document; every call site patches a
document it has just read.) -/
def FsRequests.updateStatusAsync (id : String) (status : Status) (store : Requests) :
    Bool × Requests × List StoreEvent :=
  (true,
   store.map (fun kv => if kv.1 = id then (kv.1, { kv.2 with status := status }) else kv),
   [StoreEvent.writeRequestStatus id status])

/-- HTTP-style route outcomes (`Results.*` in the minimal API). -/
inductive ApiResult (α : Type) where
  | ok (value : α)
  | created (value : α)
  | noContent
  | badRequest (msg : String)
  | notFound
  | conflict (msg : String)
  | problem (msg : String)
deriving Repr, DecidableEq

/-- `POST /api/items` (Program.cs): rejects a blank owner id with
BadRequest, otherwise persists through `FsItems.CreateAsync`.  The
`none` branch of `createAsync` is unreachable here because the owner id
was just checked non-blank. -/
def createItemRoute (item : InventoryItemRequest) (freshId : String) (store : Store) :
    ApiResult InventoryItem × Store × List StoreEvent :=
  if isBlank item.ownerId then (.badRequest "OwnerId is required.", store, [])
  else
    match FsItems.createAsync item freshId store.items with
    | none => (.problem "OwnerId is required.", store, [])
    | some (createdItem, items2, ev) =>
        (.created createdItem, { store with items := items2 }, ev)

/-- `PUT /api/items/{itemId}` (Program.cs): manual field-by-field patch
of the existing document; blank or zero incoming fields preserve the
stored value, `isLent` is taken from the body unconditionally, and a
non-lent result has its borrow fields cleared before the single
`UpdateAsync`.  The zero test on `pricePerDay` embeds
`Math.Abs(x) < double.Epsilon`, which holds exactly for a zero value. -/
def putItemRoute (itemId : String) (item : InventoryItemRequest) (store : Store) :
    ApiResult Unit × Store × List StoreEvent :=
  match FsItems.readAsync itemId store.items with
  | (none, _, ev1) => (.notFound, store, ev1)
  | (some existing, _, ev1) =>
    let existing :=
      if isBlank item.ownerId then existing
      else { existing with ownerRef := some (strTrim item.ownerId) }
    let existing :=
      { existing with
          name := if isBlank item.name then existing.name else item.name
          picture := if isBlank item.picture then existing.picture else item.picture
          location := if isBlank item.location then existing.location else item.location
          condition := if isBlank item.condition then existing.condition else item.condition
          pricePerDay := if item.pricePerDay = 0 then existing.pricePerDay else item.pricePerDay
          isLent := item.isLent }
    let existing :=
      if isBlank item.borrowerId then existing
      else { existing with borrowerRef := some (strTrim item.borrowerId) }
    let existing :=
      { existing with
          borrowedOn := match item.borrowedOn with | some v => some v | none => existing.borrowedOn
          dueAt := match item.dueAt with | some v => some v | none => existing.dueAt }
    let existing :=
      if existing.isLent then existing
      else { existing with borrowerRef := none, borrowedOn := none, dueAt := none }
    match FsItems.updateAsync existing store.items with
    | (true, items2, ev2) => (.noContent, { store with items := items2 }, ev1 ++ ev2)
    | (false, items2, ev2) =>
        (.problem "Unable to update item.", { store with items := items2 }, ev1 ++ ev2)

/-- `POST /api/items/{itemId}/borrow` (Program.cs): BadRequest on blank
borrower id; NotFound on missing item; Conflict when already lent;
otherwise sets the borrow fields (borrowedOn defaults to now) and writes
the item. -/
def borrowRoute (itemId : String) (body : BorrowBody) (now : Nat) (store : Store) :
    ApiResult InventoryItem × Store × List StoreEvent :=
  if isBlank body.borrowerId then (.badRequest "BorrowerId is required.", store, [])
  else
    match FsItems.readAsync itemId store.items with
    | (none, _, ev1) => (.notFound, store, ev1)
    | (some item, _, ev1) =>
      if item.isLent then (.conflict "Item is already borrowed.", store, ev1)
      else
        let item :=
          { item with
              isLent := true
              borrowerRef := some (strTrim body.borrowerId)
              borrowedOn := some (match body.borrowedOn with | some v => v | none => now)
              dueAt := body.dueAt }
        match FsItems.updateAsync item store.items with
        | (false, _, ev2) => (.problem "Unable to mark item as borrowed.", store, ev1 ++ ev2)
        | (true, items2, ev2) => (.ok item, { store with items := items2 }, ev1 ++ ev2)

/-- `POST /api/items/{itemId}/return` (Program.cs): delegates to
`FsItems.ReturnItemAsync`; false maps to NotFound with the message
"Item not found or already available.". -/
def returnRoute (itemId : String) (store : Store) :
    ApiResult Unit × Store × List StoreEvent :=
  match FsItems.returnItemAsync itemId store.items with
  | (false, items2, ev) => (.notFound, { store with items := items2 }, ev)
  | (true, items2, ev) => (.ok (), { store with items := items2 }, ev)

/-- `DELETE /api/items/{itemId}` (Program.cs): delegates to
`FsItems.DeleteAsync`; false maps to NotFound, true to NoContent. -/
def deleteItemRoute (itemId : String) (store : Store) :
    ApiResult Unit × Store × List StoreEvent :=
  match FsItems.deleteAsync itemId store.items with
  | (false, items2, ev) => (.notFound, { store with items := items2 }, ev)
  | (true, items2, ev) => (.noContent, { store with items := items2 }, ev)

/-- `POST /api/requests` (Program.cs): BadRequest on blank item or
borrower id; NotFound on missing item; BadRequest when the item has no
resolvable owner; BadRequest on a self-request (checked before the lent
check); Conflict when the item is lent; otherwise creates a pending
`BorrowRequestEntity` snapshotting the item name and owner id. -/
def createRequestRoute (dto : CreateRequestDto) (freshId : String) (now : Nat) (store : Store) :
    ApiResult BorrowRequestEntity × Store × List StoreEvent :=
  if isBlank dto.itemId || isBlank dto.borrowerId then
    (.badRequest "ItemId and BorrowerId are required.", store, [])
  else
    match FsItems.readAsync dto.itemId store.items with
    | (none, _, ev1) => (.notFound, store, ev1)
    | (some item, _, ev1) =>
      let ownerId := item.ownerRef.getD ""
      if isBlank ownerId then (.badRequest "Item has no owner.", store, ev1)
      else if ownerId = dto.borrowerId then
        (.badRequest "You cannot request your own item.", store, ev1)
      else if item.isLent then (.conflict "Item is currently loaned.", store, ev1)
      else
        let entity : BorrowRequestEntity :=
          { requestId := ""
            ownerId := ownerId
            borrowerId := dto.borrowerId
            itemId := item.itemId
            itemName := item.name
            dueAt := dto.dueAt
            status := Status.pending
            createdAt := now }
        match FsRequests.createAsync entity freshId store.requests with
        | (createdEntity, reqs2, ev2) =>
            (.ok createdEntity, { store with requests := reqs2 }, ev1 ++ ev2)

/-- `GET /api/requests/owner/{ownerId}` (Program.cs): delegates to
`FsRequests.ListForOwnerAsync`. -/
def listOwnerRequestsRoute (ownerId : String) (store : Store) :
    ApiResult (List BorrowRequestEntity) × Store × List StoreEvent :=
  match FsRequests.listForOwnerAsync ownerId store.requests with
  | (list, ev) => (.ok list, store, ev)

/-- `POST /api/requests/{requestId}/respond` (Program.cs): NotFound on a
missing request; Conflict when the request is not pending; deny patches
the status to denied and never touches the item; accept re-reads the
item, fails NotFound when it is gone and Conflict when it is already
lent, otherwise writes the loaned item first and then patches the
request status to accepted. -/
def respondRoute (requestId : String) (accepted : Bool) (now : Nat) (store : Store) :
    ApiResult Status × Store × List StoreEvent :=
  match FsRequests.readAsync requestId store.requests with
  | (none, _, ev1) => (.notFound, store, ev1)
  | (some req, _, ev1) =>
    if req.status ≠ Status.pending then (.conflict "Request is not pending.", store, ev1)
    else if !accepted then
      match FsRequests.updateStatusAsync requestId Status.denied store.requests with
      | (_, reqs2, ev2) => (.ok Status.denied, { store with requests := reqs2 }, ev1 ++ ev2)
    else
      match FsItems.readAsync req.itemId store.items with
      | (none, _, ev2) => (.notFound, store, ev1 ++ ev2)
      | (some item, _, ev2) =>
        if item.isLent then (.conflict "Item already loaned.", store, ev1 ++ ev2)
        else
          let item :=
            { item with
                isLent := true
                borrowerRef := some req.borrowerId
                borrowedOn := some now
                dueAt := req.dueAt }
          match FsItems.updateAsync item store.items with
          | (false, items2, ev3) =>
              (.problem "Failed to update item.", { store with items := items2 },
               ev1 ++ ev2 ++ ev3)
          | (true, items2, ev3) =>
            match FsRequests.updateStatusAsync requestId Status.accepted store.requests with
            | (_, reqs2, ev4) =>
                (.ok Status.accepted, { items := items2, requests := reqs2 },
                 ev1 ++ ev2 ++ ev3 ++ ev4)

/-!  Concrete fixtures used by witnesses, counterexamples and failing-input
evaluations.  `availableItem` is exactly the payload that
`FsItems.CreateAsync` produces for a plain owner-created listing, so the
stores below are reachable through the public operations. -/

/-- An available (not lent) item listed by owner `u1`. -/
def availableItem : InventoryItem :=
  { itemId := "i1", name := "Drill", pricePerDay := 5, picture := "", location := "",
    isLent := false, condition := "good", ownerRef := some "u1", borrowerRef := none,
    borrowedOn := none, dueAt := none }

/-- An item currently lent to `u3`. -/
def lentItem : InventoryItem :=
  { itemId := "i2", name := "Saw", pricePerDay := 2, picture := "", location := "",
    isLent := true, condition := "ok", ownerRef := some "u1", borrowerRef := some "u3",
    borrowedOn := some 3, dueAt := some 9 }

/-- A pending borrow request by `u2` for `availableItem`. -/
def pendingRequest : BorrowRequestEntity :=
  { requestId := "r1", ownerId := "u1", borrowerId := "u2", itemId := "i1",
    itemName := "Drill", dueAt := some 10, status := Status.pending, createdAt := 2 }

/-- A pending borrow request by `u2` for `lentItem`. -/
def pendingRequestLent : BorrowRequestEntity :=
  { requestId := "r2", ownerId := "u1", borrowerId := "u2", itemId := "i2",
    itemName := "Saw", dueAt := some 12, status := Status.pending, createdAt := 2 }

/-- A request that was already denied. -/
def deniedRequest : BorrowRequestEntity :=
  { requestId := "r3", ownerId := "u1", borrowerId := "u2", itemId := "i1",
    itemName := "Drill", dueAt := some 10, status := Status.denied, createdAt := 2 }

/-- Store with an available item and a pending request for it. -/
def storeW : Store :=
  { items := [("i1", availableItem)], requests := [("r1", pendingRequest)] }

/-- Store with a lent item and a pending request targeting it. -/
def storeLent : Store :=
  { items := [("i2", lentItem)], requests := [("r2", pendingRequestLent)] }

/-- Store with an already-denied request. -/
def storeDenied : Store :=
  { items := [("i1", availableItem)], requests := [("r3", deniedRequest)] }

/-- Store with an available item and no requests. -/
def storeNoReq : Store :=
  { items := [("i1", availableItem)], requests := [] }

/-- C1: accepting a pending request whose item exists and is free writes
the loaned item (lent flag set, borrower taken from the request,
borrowedOn set to now, dueAt taken from the request) and then patches
the request status to accepted; the event trace shows the item write
happening before the request-status write. -/
theorem respond_accept_transitions (store : Store) (requestId : String) (now : Nat)
    (req : BorrowRequestEntity) (item : InventoryItem)
    (hbr : isBlank requestId = false)
    (hreq : lookupMap store.requests requestId = some req)
    (hpend : req.status = Status.pending)
    (hbi : isBlank req.itemId = false)
    (hitem : lookupMap store.items req.itemId = some item)
    (hfree : item.isLent = false)
    (hkey : isBlank item.itemId = false) :
    respondRoute requestId true now store =
      (ApiResult.ok Status.accepted,
       { items := insertMap item.itemId
            { item with
                isLent := true
                borrowerRef := some req.borrowerId
                borrowedOn := some now
                dueAt := req.dueAt } store.items,
         requests := store.requests.map
            (fun kv => if kv.1 = requestId then (kv.1, { kv.2 with status := Status.accepted }) else kv) },
       [StoreEvent.readRequest requestId, StoreEvent.readItem req.itemId,
        StoreEvent.writeItem item.itemId,
        StoreEvent.writeRequestStatus requestId Status.accepted]) := by
  unfold respondRoute FsRequests.readAsync FsItems.readAsync FsItems.updateAsync
    FsRequests.updateStatusAsync
  simp [hbr, hreq, hpend, hbi, hitem, hfree, hkey]

/-- C1 witness: concrete accepted response on `storeW`. -/
theorem respond_accept_transitions_witness :
    respondRoute "r1" true 5 storeW =
      (ApiResult.ok Status.accepted,
       { items := insertMap availableItem.itemId
            { availableItem with
                isLent := true
                borrowerRef := some pendingRequest.borrowerId
                borrowedOn := some 5
                dueAt := pendingRequest.dueAt } storeW.items,
         requests := storeW.requests.map
            (fun kv => if kv.1 = "r1" then (kv.1, { kv.2 with status := Status.accepted }) else kv) },
       [StoreEvent.readRequest "r1", StoreEvent.readItem pendingRequest.itemId,
        StoreEvent.writeItem availableItem.itemId,
        StoreEvent.writeRequestStatus "r1" Status.accepted]) :=
  respond_accept_transitions storeW "r1" 5 pendingRequest availableItem
    (by decide) (by decide) rfl (by decide) (by decide) rfl (by decide)

/-- C2: accepting a pending request whose item has since become lent
fails with Conflict; the returned store is the input store, so the
request record is untouched and still pending, and the event trace
contains only the two reads (no write occurs). -/
theorem respond_accept_lent_conflict (store : Store) (requestId : String) (now : Nat)
    (req : BorrowRequestEntity) (item : InventoryItem)
    (hbr : isBlank requestId = false)
    (hreq : lookupMap store.requests requestId = some req)
    (hpend : req.status = Status.pending)
    (hbi : isBlank req.itemId = false)
    (hitem : lookupMap store.items req.itemId = some item)
    (hlent : item.isLent = true) :
    respondRoute requestId true now store =
      (ApiResult.conflict "Item already loaned.", store,
       [StoreEvent.readRequest requestId, StoreEvent.readItem req.itemId]) := by
  unfold respondRoute FsRequests.readAsync FsItems.readAsync
  simp [hbr, hreq, hpend, hbi, hitem, hlent]

/-- C2 witness: accepting the pending request for the already-lent item
of `storeLent` conflicts and leaves the store unchanged. -/
theorem respond_accept_lent_conflict_witness :
    respondRoute "r2" true 5 storeLent =
      (ApiResult.conflict "Item already loaned.", storeLent,
       [StoreEvent.readRequest "r2", StoreEvent.readItem pendingRequestLent.itemId]) :=
  respond_accept_lent_conflict storeLent "r2" 5 pendingRequestLent lentItem
    (by decide) (by decide) rfl (by decide) (by decide) rfl

/-- C5: responding (either way) to a request whose status is not
pending fails with Conflict and changes nothing: the store comes back
unchanged and the trace holds only the request read. -/
theorem respond_nonpending_conflict (store : Store) (requestId : String) (accepted : Bool)
    (now : Nat) (req : BorrowRequestEntity)
    (hbr : isBlank requestId = false)
    (hreq : lookupMap store.requests requestId = some req)
    (hnp : req.status ≠ Status.pending) :
    respondRoute requestId accepted now store =
      (ApiResult.conflict "Request is not pending.", store,
       [StoreEvent.readRequest requestId]) := by
  unfold respondRoute FsRequests.readAsync
  simp [hbr, hreq, hnp]

/-- C5 witness: a second response to the already-denied request of
`storeDenied` conflicts. -/
theorem respond_nonpending_conflict_witness :
    respondRoute "r3" true 5 storeDenied =
      (ApiResult.conflict "Request is not pending.", storeDenied,
       [StoreEvent.readRequest "r3"]) :=
  respond_nonpending_conflict storeDenied "r3" true 5 deniedRequest
    (by decide) (by decide) (by decide)

/-- C6: denying a pending request patches only the request status to
denied: the items collection of the resulting store is exactly the
input one, and the event trace holds no item read or write. -/
theorem respond_deny_frame (store : Store) (requestId : String) (now : Nat)
    (req : BorrowRequestEntity)
    (hbr : isBlank requestId = false)
    (hreq : lookupMap store.requests requestId = some req)
    (hpend : req.status = Status.pending) :
    respondRoute requestId false now store =
      (ApiResult.ok Status.denied,
       { store with
           requests := store.requests.map
             (fun kv => if kv.1 = requestId then (kv.1, { kv.2 with status := Status.denied }) else kv) },
       [StoreEvent.readRequest requestId,
        StoreEvent.writeRequestStatus requestId Status.denied]) := by
  unfold respondRoute FsRequests.readAsync FsRequests.updateStatusAsync
  simp [hbr, hreq, hpend]

/-- C6 witness: denying the pending request of `storeW` leaves the item
collection untouched. -/
theorem respond_deny_frame_witness :
    respondRoute "r1" false 5 storeW =
      (ApiResult.ok Status.denied,
       { storeW with
           requests := storeW.requests.map
             (fun kv => if kv.1 = "r1" then (kv.1, { kv.2 with status := Status.denied }) else kv) },
       [StoreEvent.readRequest "r1",
        StoreEvent.writeRequestStatus "r1" Status.denied]) :=
  respond_deny_frame storeW "r1" 5 pendingRequest (by decide) (by decide) rfl

/-- C3: the submit-request handler, for non-blank arguments, fails
NotFound when the item is missing, BadRequest when the item has no
resolvable owner, BadRequest on a self-request regardless of the lent
flag (the self check precedes the lent check), Conflict when the item
is lent, and otherwise stores a pending request snapshotting the item
name and owner id at creation time. -/
theorem createRequest_checks (dto : CreateRequestDto) (freshId : String) (now : Nat)
    (store : Store)
    (hbi : isBlank dto.itemId = false)
    (hbb : isBlank dto.borrowerId = false) :
    (lookupMap store.items dto.itemId = none →
      createRequestRoute dto freshId now store =
        (ApiResult.notFound, store, [StoreEvent.readItem dto.itemId])) ∧
    (∀ item, lookupMap store.items dto.itemId = some item →
      (isBlank (item.ownerRef.getD "") = true →
        createRequestRoute dto freshId now store =
          (ApiResult.badRequest "Item has no owner.", store, [StoreEvent.readItem dto.itemId])) ∧
      (isBlank (item.ownerRef.getD "") = false →
        (item.ownerRef.getD "" = dto.borrowerId →
          createRequestRoute dto freshId now store =
            (ApiResult.badRequest "You cannot request your own item.", store,
             [StoreEvent.readItem dto.itemId])) ∧
        (item.ownerRef.getD "" ≠ dto.borrowerId →
          (item.isLent = true →
            createRequestRoute dto freshId now store =
              (ApiResult.conflict "Item is currently loaned.", store,
               [StoreEvent.readItem dto.itemId])) ∧
          (item.isLent = false →
            createRequestRoute dto freshId now store =
              (ApiResult.ok
                 { requestId := freshId, ownerId := item.ownerRef.getD "",
                   borrowerId := dto.borrowerId, itemId := item.itemId,
                   itemName := item.name, dueAt := dto.dueAt,
                   status := Status.pending, createdAt := now },
               { store with
                   requests := insertMap freshId
                     { requestId := freshId, ownerId := item.ownerRef.getD "",
                       borrowerId := dto.borrowerId, itemId := item.itemId,
                       itemName := item.name, dueAt := dto.dueAt,
                       status := Status.pending, createdAt := now } store.requests },
               [StoreEvent.readItem dto.itemId, StoreEvent.writeRequest freshId]))))) := by
  refine ⟨fun hnone => ?_, fun item hsome => ⟨fun howner => ?_, fun howner => ⟨fun hself => ?_,
    fun hself => ⟨fun hlent => ?_, fun hlent => ?_⟩⟩⟩⟩ <;>
    unfold createRequestRoute FsItems.readAsync FsRequests.createAsync <;>
    simp_all [show isBlank "" = true from rfl]

/-- C3 witness: `u2` requests the available item `i1` of `u1` in
`storeNoReq`; a pending request snapshotting name and owner is stored. -/
theorem createRequest_checks_witness :
    createRequestRoute { itemId := "i1", borrowerId := "u2", dueAt := some 10 } "r9" 4 storeNoReq =
      (ApiResult.ok
         { requestId := "r9", ownerId := availableItem.ownerRef.getD "",
           borrowerId := "u2", itemId := availableItem.itemId,
           itemName := availableItem.name, dueAt := some 10,
           status := Status.pending, createdAt := 4 },
       { storeNoReq with
           requests := insertMap "r9"
             { requestId := "r9", ownerId := availableItem.ownerRef.getD "",
               borrowerId := "u2", itemId := availableItem.itemId,
               itemName := availableItem.name, dueAt := some 10,
               status := Status.pending, createdAt := 4 } storeNoReq.requests },
       [StoreEvent.readItem "i1", StoreEvent.writeRequest "r9"]) := by
  have h := createRequest_checks { itemId := "i1", borrowerId := "u2", dueAt := some 10 }
    "r9" 4 storeNoReq (by decide) (by decide)
  exact ((((h.2 availableItem (by decide)).2 (by decide)).2 (by decide)).2 rfl)

/-- Update body that sets the lent flag without supplying a borrower;
every other field is blank or zero, so the merge-by-presence policy
keeps the stored values. -/
def lentNoBorrowerBody : InventoryItemRequest :=
  { itemId := "", name := "", pricePerDay := 0, picture := "", location := "",
    isLent := true, condition := "", ownerId := "", borrowerId := "",
    borrowedOn := none, dueAt := none }

/-- Create body for `availableItem`: owner-created listing of `i1`. -/
def createDrillBody : InventoryItemRequest :=
  { itemId := "i1", name := "Drill", pricePerDay := 5, picture := "", location := "",
    isLent := false, condition := "good", ownerId := "u1", borrowerId := "",
    borrowedOn := none, dueAt := none }

/-- C4 failing input: starting from the store reached by creating item
`i1` through the create route, a PUT with `isLent = true` and a blank
borrower id succeeds with NoContent and leaves the item lent with no
borrower — the partial state the invariant forbids. -/
theorem putItem_breaks_lent_invariant :
    createItemRoute createDrillBody "g1" { items := [], requests := [] } =
      (ApiResult.created availableItem,
       { items := [("i1", availableItem)], requests := [] },
       [StoreEvent.writeItem "i1"]) ∧
    (putItemRoute "i1" lentNoBorrowerBody { items := [("i1", availableItem)], requests := [] }).1
      = ApiResult.noContent ∧
    (lookupMap
        (putItemRoute "i1" lentNoBorrowerBody
          { items := [("i1", availableItem)], requests := [] }).2.1.items "i1").map
        (fun it => (it.isLent, it.borrowerRef, it.borrowedOn, it.dueAt))
      = some (true, none, none, none) := by
  refine ⟨by decide, by decide, by decide⟩

/-- C7 counterexample: `i1` in `storeNoReq` exists, is not lent and has
no borrower, yet `ReturnItemAsync` reports success (and the return route
answers Ok) instead of failing as the claim states. -/
theorem returnItem_available_succeeds :
    (lookupMap storeNoReq.items "i1").map (fun it => (it.isLent, it.borrowerRef))
      = some (false, none) ∧
    FsItems.returnItemAsync "i1" storeNoReq.items =
      (true, storeNoReq.items, [StoreEvent.readItem "i1", StoreEvent.writeItem "i1"]) ∧
    (returnRoute "i1" storeNoReq).1 = ApiResult.ok () := by
  refine ⟨by decide, by decide, by decide⟩

/-- C7 amended: for a non-blank id, `ReturnItemAsync` fails only when
the item is missing; when the item exists — lent or not — it clears the
lent flag and all three borrow fields in one write and succeeds. -/
theorem returnItemAsync_spec (itemId : String) (items : Items)
    (hb : isBlank itemId = false) :
    (lookupMap items itemId = none →
      FsItems.returnItemAsync itemId items =
        (false, items, [StoreEvent.readItem itemId])) ∧
    (∀ it, lookupMap items itemId = some it →
      FsItems.returnItemAsync itemId items =
        (true,
         insertMap itemId
           { it with isLent := false, borrowerRef := none, borrowedOn := none, dueAt := none }
           items,
         [StoreEvent.readItem itemId, StoreEvent.writeItem itemId])) := by
  constructor
  · intro h
    unfold FsItems.returnItemAsync
    simp [hb, h]
  · intro it h
    unfold FsItems.returnItemAsync
    simp [hb, h]

/-- C7 amended witness: returning the lent item `i2` clears every
borrow field in a single write. -/
theorem returnItemAsync_spec_witness :
    FsItems.returnItemAsync "i2" [("i2", lentItem)] =
      (true,
       insertMap "i2"
         { lentItem with isLent := false, borrowerRef := none, borrowedOn := none, dueAt := none }
         [("i2", lentItem)],
       [StoreEvent.readItem "i2", StoreEvent.writeItem "i2"]) :=
  (returnItemAsync_spec "i2" [("i2", lentItem)] (by decide)).2 lentItem (by decide)

/-- C9 counterexample: deleting the absent id "ghost" returns true (the
route would answer NoContent), not the false/not-found outcome the
claim states. -/
theorem deleteAsync_missing_returns_true :
    lookupMap ([] : Items) "ghost" = none ∧
    FsItems.deleteAsync "ghost" ([] : Items) =
      (true, [], [StoreEvent.deleteItem "ghost"]) ∧
    (deleteItemRoute "ghost" { items := [], requests := [] }).1 = ApiResult.noContent := by
  refine ⟨by decide, by decide, by decide⟩

/-- C9 amended: `DeleteAsync` returns false exactly for blank ids
(without touching storage); for any non-blank id it issues the delete
and returns true whether or not the entity exists, with no check of the
stored lent state. -/
theorem deleteAsync_spec (itemId : String) (items : Items) :
    (isBlank itemId = true →
      FsItems.deleteAsync itemId items = (false, items, [])) ∧
    (isBlank itemId = false →
      FsItems.deleteAsync itemId items =
        (true, eraseMap itemId items, [StoreEvent.deleteItem itemId])) := by
  constructor <;> intro h <;> unfold FsItems.deleteAsync <;> simp [h]

/-- C9 amended witness: deleting the existing lent item `i2` succeeds
unconditionally. -/
theorem deleteAsync_spec_witness :
    FsItems.deleteAsync "i2" [("i2", lentItem)] =
      (true, eraseMap "i2" [("i2", lentItem)], [StoreEvent.deleteItem "i2"]) :=
  (deleteAsync_spec "i2" [("i2", lentItem)]).2 (by decide)

/-- C10: every registry operation short-circuits on a blank identifier
without any storage round-trip: item read returns null, item delete
returns false, request read returns null, and the owner-filtered
listings return the empty sequence; all with an empty event trace. -/
theorem blankId_short_circuits (id : String) (items : Items) (requests : Requests)
    (hb : isBlank id = true) :
    FsItems.readAsync id items = (none, items, []) ∧
    FsItems.deleteAsync id items = (false, items, []) ∧
    FsRequests.readAsync id requests = (none, requests, []) ∧
    FsItems.listByOwnerAsync id items = ([], []) ∧
    FsRequests.listForOwnerAsync id requests = ([], []) := by
  unfold FsItems.readAsync FsItems.deleteAsync FsRequests.readAsync
    FsItems.listByOwnerAsync FsRequests.listForOwnerAsync
  simp [hb]

/-- C10 witness: the whitespace-only id " " short-circuits all five
operations on the non-empty stores of `storeLent`. -/
theorem blankId_short_circuits_witness :
    FsItems.readAsync " " storeLent.items = (none, storeLent.items, []) ∧
    FsItems.deleteAsync " " storeLent.items = (false, storeLent.items, []) ∧
    FsRequests.readAsync " " storeLent.requests = (none, storeLent.requests, []) ∧
    FsItems.listByOwnerAsync " " storeLent.items = ([], []) ∧
    FsRequests.listForOwnerAsync " " storeLent.requests = ([], []) :=
  blankId_short_circuits " " storeLent.items storeLent.requests (by decide)

/-- Create body claiming a lent state with no borrower: the registry
normalizes it rather than persisting it as given. -/
def lentNoBorrowerCreateBody : InventoryItemRequest :=
  { itemId := "i9", name := "Ladder", pricePerDay := 3, picture := "", location := "",
    isLent := true, condition := "fair", ownerId := "u1", borrowerId := "",
    borrowedOn := some 1, dueAt := some 9 }

/-- C8 counterexample: `CreateAsync` is handed an item with
`isLent = true`, a borrowedOn and a dueAt but no borrower, and persists
`isLent = false` with all three borrow fields cleared — not the item as
given, refuting the no-normalization claim. -/
theorem createAsync_normalizes_counterexample :
    lentNoBorrowerCreateBody.isLent = true ∧
    lentNoBorrowerCreateBody.borrowedOn = some 1 ∧
    (FsItems.createAsync lentNoBorrowerCreateBody "f1" []).map
        (fun r => (r.1.isLent, r.1.borrowerRef, r.1.borrowedOn, r.1.dueAt))
      = some (false, none, none, none) := by
  refine ⟨by decide, by decide, by decide⟩

/-- C8 amended: for a non-blank owner id, `CreateAsync` assigns
`freshId` exactly when the given id is blank and persists the item in a
single write after normalizing the lent/borrower fields: the lent flag
is coerced to `lent && borrower-resolvable`, a non-lent payload has its
borrower, borrowedOn and dueAt cleared, and a lent payload keeps them
as given; all remaining fields persist as given. -/
theorem createAsync_assigns_id_and_normalizes (req : InventoryItemRequest) (freshId : String)
    (items : Items) (howner : isBlank req.ownerId = false) :
    ∃ payload,
      FsItems.createAsync req freshId items =
        some (payload, insertMap payload.itemId payload items,
              [StoreEvent.writeItem payload.itemId]) ∧
      payload.itemId = (if isBlank req.itemId then freshId else strTrim req.itemId) ∧
      payload.name = req.name ∧
      payload.pricePerDay = req.pricePerDay ∧
      payload.picture = req.picture ∧
      payload.location = req.location ∧
      payload.condition = req.condition ∧
      payload.ownerRef = some (strTrim req.ownerId) ∧
      payload.isLent = (req.isLent && !isBlank req.borrowerId) ∧
      (payload.isLent = false →
        payload.borrowerRef = none ∧ payload.borrowedOn = none ∧ payload.dueAt = none) ∧
      (payload.isLent = true →
        payload.borrowerRef = some (strTrim req.borrowerId) ∧
        payload.borrowedOn = req.borrowedOn ∧ payload.dueAt = req.dueAt) := by
  cases hl : req.isLent <;> cases hbb : isBlank req.borrowerId <;>
    (unfold FsItems.createAsync createProfileReference;
     simp only [howner, hl, hbb, Bool.false_eq_true, Bool.true_and, Bool.false_and,
       Option.isSome_some, Option.isSome_none, Bool.and_false, Bool.and_true,
       if_true, if_false, reduceIte];
     refine ⟨_, rfl, ?_⟩;
     simp_all)

/-- C8 amended witness: the normalized payload for
`lentNoBorrowerCreateBody` exists and satisfies every clause. -/
theorem createAsync_assigns_id_and_normalizes_witness :
    ∃ payload,
      FsItems.createAsync lentNoBorrowerCreateBody "f1" [] =
        some (payload, insertMap payload.itemId payload [],
              [StoreEvent.writeItem payload.itemId]) ∧
      payload.itemId =
        (if isBlank lentNoBorrowerCreateBody.itemId then "f1"
         else strTrim lentNoBorrowerCreateBody.itemId) ∧
      payload.name = lentNoBorrowerCreateBody.name ∧
      payload.pricePerDay = lentNoBorrowerCreateBody.pricePerDay ∧
      payload.picture = lentNoBorrowerCreateBody.picture ∧
      payload.location = lentNoBorrowerCreateBody.location ∧
      payload.condition = lentNoBorrowerCreateBody.condition ∧
      payload.ownerRef = some (strTrim lentNoBorrowerCreateBody.ownerId) ∧
      payload.isLent = (lentNoBorrowerCreateBody.isLent && !isBlank lentNoBorrowerCreateBody.borrowerId) ∧
      (payload.isLent = false →
        payload.borrowerRef = none ∧ payload.borrowedOn = none ∧ payload.dueAt = none) ∧
      (payload.isLent = true →
        payload.borrowerRef = some (strTrim lentNoBorrowerCreateBody.borrowerId) ∧
        payload.borrowedOn = lentNoBorrowerCreateBody.borrowedOn ∧
        payload.dueAt = lentNoBorrowerCreateBody.dueAt) :=
  createAsync_assigns_id_and_normalizes lentNoBorrowerCreateBody "f1" [] (by decide)
